import Mathlib

/-!
# Verification of the run-query client driver

A shallow embedding, in Lean 4, of `src/progly/run-query.cc`: the client-side
driver of a computation-pushdown query engine over an object-storage cluster.
Pure fragments of the C++ are translated to Lean functions; the concurrent
dispatch/completion machinery is modelled as explicit state-transition
functions and a step relation.  Machine integers become `Nat`/`Int`;
`double` query parameters and field values become `ℚ` (the claims under
study depend only on the ordering of these values, never on IEEE rounding);
byte buffers (`ceph::bufferlist`) become `List Nat` of byte values; code
paths that throw or `assert(0)` return `Except`/`Option` errors.
External collaborators (the flatbuffer transform `processSkyFb`, the root
header reader, the random shuffle) are parameters of the definitions that
call them, mirroring their interface boundary.
-/

namespace RunQuery

/-- A byte buffer (`ceph::bufferlist`): the list of its byte values. -/
abbrev Buf := List Nat

/-- Decode an 8-byte little-endian unsigned integer from the front of a
buffer, returning the value and the remaining bytes; `none` models the
`ceph::buffer::error` thrown when fewer than 8 bytes remain.  Embeds
`::decode(uint64_t&, it)` as used at run-query.cc:264-266, 372-374, 409. -/
def decodeU64 : Buf → Option (Nat × Buf)
  | b0 :: b1 :: b2 :: b3 :: b4 :: b5 :: b6 :: b7 :: rest =>
      some (b0 + 256 * (b1 + 256 * (b2 + 256 * (b3 + 256 *
            (b4 + 256 * (b5 + 256 * (b6 + 256 * b7)))))), rest)
  | _ => none

/-- Encode an 8-byte little-endian unsigned integer (for concrete test
payloads; the inverse of `decodeU64` on values below `2^64`). -/
def encodeU64 (n : Nat) : Buf :=
  [n % 256, n / 256 % 256, n / 256 ^ 2 % 256, n / 256 ^ 3 % 256,
   n / 256 ^ 4 % 256, n / 256 ^ 5 % 256, n / 256 ^ 6 % 256, n / 256 ^ 7 % 256]

/-- The `len` bytes of `buf` starting at byte offset `off`, that is
`(buf.drop off).take len`.  Embeds a raw (unaligned) field load from a
row pointer. -/
def readBytes (buf : Buf) (off len : Nat) : Buf :=
  (buf.drop off).take len

/-! ## Fixed row layout (run-query.cc:167-174) -/

def order_key_field_offset : Nat := 0
def line_number_field_offset : Nat := 12
def quantity_field_offset : Nat := 16
def extended_price_field_offset : Nat := 24
def discount_field_offset : Nat := 32
def shipdate_field_offset : Nat := 50
def comment_field_offset : Nat := 97
def comment_field_length : Nat := 44

/-! ## The raw-row worker path for query "a" (run-query.cc:365-426)

`priceVal` is the interpretation of the 8 bytes of an `extended_price`
field as a `double` (abstracted: the claims depend only on comparisons of
the resulting values).  The control flow mirrors the source:

* lines 367-381: a local `bufferlist bl` is default-constructed empty; when
  `use_cls` the three statistics are decoded from `s->bl` but the remaining
  bytes of `s->bl` are never assigned to `bl` — only the `else` branch sets
  `bl = s->bl`;
* lines 388-400: `row_size` is 8 when `projection && use_cls`, else 141;
  `num_rows = bl.length() / row_size` (integer division);
  `rows_returned += num_rows`; `nrows_processed` takes the server count
  when `use_cls`, else `num_rows`;
* lines 402-426: for query "a", when `use_cls` a `matching_rows` count is
  decoded from `bl` and added to `result_count` (the decode throws when
  `bl` has fewer than 8 bytes, and the throw is not caught on this path);
  otherwise each row's `extended_price` is compared against the threshold.
-/

/-- A fatal decode failure: a `ceph::buffer::error` that either trips an
`assert` in a catch block or escapes the worker uncaught. -/
inductive BufErr where
  | endOfBuffer
deriving Repr, DecidableEq

/-- The three per-object counter deltas produced by one worker iteration. -/
structure RawOut where
  result_count : Nat
  rows_returned : Nat
  nrows_processed : Nat
deriving Repr, DecidableEq

/-- Does row `rid` of buffer `bl` (at stride `row_size`) satisfy
`extended_price > threshold`?  Embeds run-query.cc:416-419. -/
def rowMatchesA (priceVal : Buf → ℚ) (threshold : ℚ)
    (bl : Buf) (row_size rid : Nat) : Bool :=
  priceVal (readBytes bl (rid * row_size + extended_price_field_offset) 8) > threshold

/-- The number of rows of `bl` passing the query-"a" predicate, over row
ids `0 ≤ rid < num_rows` (the loop of run-query.cc:415-424). -/
def countMatchingA (priceVal : Buf → ℚ) (threshold : ℚ)
    (bl : Buf) (row_size num_rows : Nat) : Nat :=
  ((List.range num_rows).filter (rowMatchesA priceVal threshold bl row_size)).length

/-- One worker iteration of the raw-row path for query "a"
(run-query.cc:365-426), from the response buffer `sbl` (= `s->bl`) to the
counter deltas, or a fatal decode error. -/
def workerQueryA (use_cls projection : Bool) (priceVal : Buf → ℚ)
    (extended_price : ℚ) (sbl : Buf) : Except BufErr RawOut :=
  -- lines 367-381: `bl` is default-empty; the `use_cls` branch decodes the
  -- statistics prefix from `s->bl` but never assigns the remainder to `bl`.
  let stats : Except BufErr (Nat × Buf) :=
    if use_cls then
      match decodeU64 sbl with
      | none => .error .endOfBuffer
      | some (_read_ns, r1) =>
        match decodeU64 r1 with
        | none => .error .endOfBuffer
        | some (_eval_ns, r2) =>
          match decodeU64 r2 with
          | none => .error .endOfBuffer
          | some (nrows_server_processed, _rest) =>
            .ok (nrows_server_processed, ([] : Buf))
    else .ok (0, sbl)
  match stats with
  | .error e => .error e
  | .ok (nrows_server_processed, bl) =>
    let row_size : Nat := if projection && use_cls then 8 else 141
    let num_rows : Nat := bl.length / row_size
    let rows_returned := num_rows
    let nrows_processed := if use_cls then nrows_server_processed else num_rows
    if use_cls then
      -- lines 403-410: decode `matching_rows` from `bl` and trust it.
      match decodeU64 bl with
      | none => .error .endOfBuffer
      | some (matching_rows, _) =>
        .ok ⟨matching_rows, rows_returned, nrows_processed⟩
    else
      if projection && use_cls then
        .ok ⟨num_rows, rows_returned, nrows_processed⟩
      else
        .ok ⟨countMatchingA priceVal extended_price bl row_size num_rows,
             rows_returned, nrows_processed⟩

/-! ## The raw-row worker path for query "e" (run-query.cc:488-512)

The claim under study concerns the shape of the compound predicate, not the
byte-level field loads, so rows are embedded as typed field views
(spec §4.1: the row decoder "materializes typed field views"); `double`
fields are `ℚ`, `int` fields are `Int`. -/

/-- A typed view of the fields of a fixed-layout row that query "e" reads. -/
structure RowViewE where
  ship_date : Int
  discount : ℚ
  quantity : ℚ
deriving Repr, DecidableEq

/-- The query-"e" range parameters. -/
structure EParams where
  ship_date_low : Int
  ship_date_high : Int
  discount_low : ℚ
  discount_high : ℚ
  quantity : ℚ
deriving Repr, DecidableEq

/-- The nested query-"e" predicate of run-query.cc:499-504: a row is
selected iff it survives all three nested `if`s. -/
def matchesE (p : EParams) (r : RowViewE) : Bool :=
  if r.ship_date ≥ p.ship_date_low ∧ r.ship_date < p.ship_date_high then
    if r.discount > p.discount_low ∧ r.discount < p.discount_high then
      if r.quantity < p.quantity then true else false
    else false
  else false

/-- The client-evaluation loop for query "e" (run-query.cc:496-512):
returns the `result_count` delta and the list of rows handed to
`print_row`, in row order. -/
def workerQueryE (p : EParams) (rows : List RowViewE) : Nat × List RowViewE :=
  rows.foldl
    (fun acc r =>
      if matchesE p r then (acc.1 + 1, acc.2 ++ [r]) else acc)
    (0, [])

/-! ## The flatbuf worker path, client-side evaluation (run-query.cc:253-363)

With `use_cls = false` the payload is the raw object: a sequence of encoded
bufferlists, each holding one flatbuffer.  Collaborators are parameters:
`rootNrows` embeds `Tables::getSkyRootHeader(fb, fb_size).nrows`, and
`processSkyFb` embeds `Tables::processSkyFb` applied to the table schema,
the query schema and the frame bytes (its output is read back through
`rootNrows`). -/

/-- Decode an encoded `bufferlist` from the front of a buffer: a 4-byte
little-endian length prefix followed by that many payload bytes. -/
def decodeBl : Buf → Option (Buf × Buf)
  | b0 :: b1 :: b2 :: b3 :: rest =>
      let n := b0 + 256 * (b1 + 256 * (b2 + 256 * b3))
      if n ≤ rest.length then some (rest.take n, rest.drop n) else none
  | _ => none

/-- The frame-decoding loop of run-query.cc:279-287: while bytes remain,
decode the next encoded bufferlist; a short prefix or overrunning length
is a fatal decode error (`none`). -/
def decodeBls (l : Buf) : Option (List Buf) :=
  match l with
  | [] => some []
  | b0 :: b1 :: b2 :: b3 :: rest =>
      let n := b0 + 256 * (b1 + 256 * (b2 + 256 * b3))
      if _h : n ≤ rest.length then
        match decodeBls (rest.drop n) with
        | some bs => some (rest.take n :: bs)
        | none => none
      else none
  | _ => none
termination_by l.length
decreasing_by
  simp only [List.length_cons, List.length_drop]
  omega

/-- The three global counters touched by the flatbuf path. -/
structure FbCounters where
  result_count : Nat
  rows_returned : Nat
  nrows_processed : Nat
deriving Repr, DecidableEq

/-- Processing of one decoded frame in the `use_cls = false` flatbuf path
(run-query.cc:289-362, `else` branch of line 299): `rows_returned` and
`nrows_processed` grow by the input frame's root-header `nrows`
(lines 296, 321); when `projection` is set (`more_processing`,
lines 333-335) the frame is transformed by `processSkyFb` and the
transformed buffer's `nrows` is added to `result_count` (lines 341-359),
otherwise the input frame's `nrows` is added directly (lines 337-340). -/
def flatbufFrameStep (projection : Bool) (rootNrows : Buf → Nat)
    (processSkyFb : String → String → Buf → Buf)
    (table_schema_str query_schema_str : String)
    (c : FbCounters) (fb : Buf) : FbCounters :=
  let nrows := rootNrows fb
  let c := { c with rows_returned := c.rows_returned + nrows }
  let c := { c with nrows_processed := c.nrows_processed + nrows }
  if projection then
    let fb_out := processSkyFb table_schema_str query_schema_str fb
    { c with result_count := c.result_count + rootNrows fb_out }
  else
    { c with result_count := c.result_count + nrows }

/-- The whole `use_cls = false` flatbuf worker iteration: decode the frame
sequence, then fold the per-frame step over it; `none` is a fatal decode
error. -/
def workerFlatbufNoCls (projection : Bool) (rootNrows : Buf → Nat)
    (processSkyFb : String → String → Buf → Buf)
    (table_schema_str query_schema_str : String)
    (payload : Buf) : Option FbCounters :=
  (decodeBls payload).map
    (List.foldl
      (flatbufFrameStep projection rootNrows processSkyFb
        table_schema_str query_schema_str)
      ⟨0, 0, 0⟩)

/-! ## Timing records (run-query.cc:61-67, 808-813, 557-570, 249, 545) -/

/-- The per-object timing record (run-query.cc:61-67). -/
structure timing where
  dispatch : Nat
  response : Nat
  read_ns : Nat
  eval_ns : Nat
  eval2_ns : Nat
deriving Repr, DecidableEq

/-- The timing record as built at dispatch (run-query.cc:812-813):
`memset(&s->times, 0, ...)` then `s->times.dispatch = getns()`. -/
def dispatchInitTiming (now : Nat) : timing :=
  { dispatch := now, response := 0, read_ns := 0, eval_ns := 0, eval2_ns := 0 }

/-- The completion callback's only write to the record
(run-query.cc:560): `s->times.response = getns()`. -/
def callbackSetResponse (now : Nat) (t : timing) : timing :=
  { t with response := now }

/-- The `use_cls` statistics decode overwrites `read_ns` and `eval_ns`
(run-query.cc:264-265 and 372-373); it runs only when `use_cls`. -/
def workerDecodeStats (read_ns eval_ns : Nat) (t : timing) : timing :=
  { t with read_ns := read_ns, eval_ns := eval_ns }

/-- The worker's final write before appending to `timings`
(run-query.cc:545): `times.eval2_ns = getns() - eval2_start`. -/
def workerSetEval2 (eval2_ns : Nat) (t : timing) : timing :=
  { t with eval2_ns := eval2_ns }

/-! ## Completion callback and worker hand-off (run-query.cc:225-247, 557-570)

The shared state touched by the storage-client callback thread and a
worker: the in-flight counter `outstanding_ios`, the completion queue
`ready_ios`, and the two condition variables (modelled as counters of
`notify` calls). -/

/-- A per-request record (`AioState`, run-query.cc:91-95): the timing
record and the response buffer (the completion handle is dropped — it is
released inside the callback). -/
structure AioRecord where
  times : timing
  bl : Buf
deriving Repr, DecidableEq

/-- The shared dispatcher/worker state visible to the completion callback. -/
structure CbState where
  outstanding_ios : Nat
  ready_ios : List AioRecord
  work_signals : Nat
  dispatch_signals : Nat
deriving Repr, DecidableEq

/-- The completion callback `handle_cb` (run-query.cc:557-570): stamp
`response = getns()`, push the record onto the completion queue
`ready_ios`, and `notify_one` on `work_cond`.  It touches nothing else:
in particular it does not change `outstanding_ios` and does not signal
`dispatch_cond`. -/
def handle_cb (now : Nat) (s : AioRecord) (st : CbState) : CbState :=
  let s := { s with times := callbackSetResponse now s.times }
  { st with ready_ios := st.ready_ios ++ [s],
            work_signals := st.work_signals + 1 }

/-- The worker's consumption step (run-query.cc:236-247): pop the front of
`ready_ios`, decrement `outstanding_ios`, and `notify_one` on
`dispatch_cond`; `none` when the queue is empty. -/
def workerConsume (st : CbState) : Option (AioRecord × CbState) :=
  match st.ready_ios with
  | [] => none
  | s :: rest =>
      some (s, { st with ready_ios := rest,
                         outstanding_ios := st.outstanding_ios - 1,
                         dispatch_signals := st.dispatch_signals + 1 })

/-! ## The dispatch loop as a transition system (run-query.cc:797-865)

The main thread dispatches a request only while `outstanding_ios < qdepth`
(line 799), popping the next target from the back of `target_objects`
(lines 803-804) and incrementing `outstanding_ios` under `dispatch_lock`
(line 847); when the window is full there is no enabled dispatch step —
the thread waits on `dispatch_cond` (line 851).  The storage-client
callback moves a submitted request to the completion queue without
touching the counter (run-query.cc:557-570); a worker pops the queue and
decrements the counter (run-query.cc:238-247). -/

/-- The state shared by the dispatch loop, the storage callbacks and the
workers, abstracting records to counts. -/
structure LoopState where
  /-- Requests dispatched and not yet consumed by a worker. -/
  outstanding_ios : Nat
  /-- Targets not yet dispatched (`target_objects`, popped from the back). -/
  remaining : List String
  /-- Requests submitted whose completion callback has not yet fired. -/
  inflight : Nat
  /-- Completions not yet consumed by a worker (`ready_ios.size()`). -/
  ready_ios : Nat
deriving Repr, DecidableEq

/-- One interleaved step of the pipeline, parameterized by the queue
depth `qdepth`. -/
inductive LoopStep (qdepth : Nat) : LoopState → LoopState → Prop
  /-- The main thread dispatches the back target; enabled only while
  `outstanding_ios < qdepth` (run-query.cc:799) and targets remain
  (run-query.cc:801-804, 847). -/
  | dispatch (s : LoopState) :
      s.outstanding_ios < qdepth → s.remaining ≠ [] →
      LoopStep qdepth s
        { s with outstanding_ios := s.outstanding_ios + 1,
                 remaining := s.remaining.dropLast,
                 inflight := s.inflight + 1 }
  /-- A storage callback completes a request: `handle_cb` pushes onto
  `ready_ios` and leaves `outstanding_ios` alone (run-query.cc:557-570). -/
  | callback (s : LoopState) :
      0 < s.inflight →
      LoopStep qdepth s
        { s with inflight := s.inflight - 1,
                 ready_ios := s.ready_ios + 1 }
  /-- A worker pops a completion and decrements `outstanding_ios`
  (run-query.cc:238-247). -/
  | consume (s : LoopState) :
      0 < s.ready_ios →
      LoopStep qdepth s
        { s with ready_ios := s.ready_ios - 1,
                 outstanding_ios := s.outstanding_ios - 1 }

/-- The initial state (run-query.cc:788-789: `outstanding_ios = 0` before
the loop starts, all targets pending). -/
def initLoopState (targets : List String) : LoopState :=
  { outstanding_ios := 0, remaining := targets, inflight := 0, ready_ios := 0 }

/-- Reachability of a pipeline state from the initial state. -/
inductive LoopReachable (qdepth : Nat) (targets : List String) : LoopState → Prop
  | init : LoopReachable qdepth targets (initLoopState targets)
  | step {s s' : LoopState} :
      LoopReachable qdepth targets s → LoopStep qdepth s s' →
      LoopReachable qdepth targets s'

/-! ## Target list construction and traversal order (run-query.cc:651-668)

`std::random_shuffle` is an external collaborator; it enters as the
`shuffle` parameter. -/

/-- The generated target names (run-query.cc:651-656):
`obj.0 … obj.(num_objs-1)`. -/
def buildTargets (num_objs : Nat) : List String :=
  (List.range num_objs).map (fun oidx => "obj." ++ toString oidx)

/-- The direction handling of run-query.cc:658-668: `fwd` reverses the
vector, `bwd` keeps the initial order, `rnd` shuffles, anything else hits
`assert(0)` (`none`). -/
def orderTargets (dir : String) (shuffle : List String → List String)
    (targets : List String) : Option (List String) :=
  if dir = "fwd" then some targets.reverse
  else if dir = "bwd" then some targets
  else if dir = "rnd" then some (shuffle targets)
  else none

/-- The next target dispatched: the dispatch loop pops from the back of
the vector (run-query.cc:803-804). -/
def nextDispatched (targets : List String) : Option String :=
  targets.getLast?

/-! ## Argument sanity checks (run-query.cc:690-781)

The `flatbuf` branch resolves schemas through external collaborators
(`getSchemaFromProjectCols`, `getSchemaStrFromSchema`), so its pass/fail
outcome enters as the parameter `flatbufCheck`. -/

/-- The command-line arguments consulted by the sanity-check block. -/
structure Args where
  query : String
  use_cls : Bool
  use_index : Bool
  projection : Bool
  extended_price : ℚ
  order_key : Int
  line_number : Int
  ship_date_low : Int
  ship_date_high : Int
  discount_low : ℚ
  discount_high : ℚ
  quantity : ℚ
  comment_regex : String
deriving Repr, DecidableEq

/-- The query names recognized by run-query.cc:690-781. -/
def knownQueries : List String :=
  ["a", "b", "c", "d", "e", "f", "fastpath", "flatbuf"]

/-- The argument sanity checks of run-query.cc:690-781, as the predicate
"no assert fires and the query is known" (`false` = the process aborts or
exits with a diagnostic before any request is dispatched; the request
dispatch loop at line 797 comes after this block). -/
def sanityCheck (flatbufCheck : Args → Bool) (a : Args) : Bool :=
  if a.query = "a" then
    !a.use_index && decide (a.extended_price ≠ 0)
  else if a.query = "b" then
    !a.use_index && decide (a.extended_price ≠ 0)
  else if a.query = "c" then
    !a.use_index && decide (a.extended_price ≠ 0)
  else if a.query = "d" then
    -- run-query.cc:713-717: `if (use_index) assert(use_cls);` then the
    -- key asserts.
    (!a.use_index || a.use_cls) &&
      decide (a.order_key ≠ 0) && decide (a.line_number ≠ 0)
  else if a.query = "e" then
    !a.use_index && decide (a.ship_date_low ≠ -9999) &&
      decide (a.ship_date_high ≠ -9999) && decide (a.discount_low ≠ -9999) &&
      decide (a.discount_high ≠ -9999) && decide (a.quantity ≠ 0)
  else if a.query = "f" then
    !a.use_index && decide (a.comment_regex ≠ "")
  else if a.query = "fastpath" then
    !a.use_index && !a.projection
  else if a.query = "flatbuf" then
    flatbufCheck a
  else
    -- run-query.cc:778-780: `invalid query` diagnostic and `exit(1)`.
    false

/-! ## The final summary line (run-query.cc:880-888) -/

/-- The summary line printed after the workers join: when
`query == "a" && use_cls` the literal `-1` stands where `rows_returned`
would be printed; otherwise `rows_returned` is printed. -/
def finalSummaryLine (query : String) (use_cls : Bool)
    (result_count rows_returned nrows_processed : Nat) : String :=
  if query = "a" ∧ use_cls = true then
    "total result row count: " ++ toString result_count ++ " / -1" ++
      "; nrows_processed=" ++ toString nrows_processed
  else
    "total result row count: " ++ toString result_count ++ " / " ++
      toString rows_returned ++ "; nrows_processed=" ++
      toString nrows_processed

/-! # Theorems -/

/-! ## Helper lemmas for the raw-row path -/

/-- Normal form of the `use_cls = false` query-"a" worker iteration (the
client-evaluation path of run-query.cc:365-426). -/
theorem workerQueryA_noCls_eq (priceVal : Buf → ℚ) (t : ℚ) (bl : Buf) :
    workerQueryA false false priceVal t bl =
      .ok ⟨countMatchingA priceVal t bl 141 (bl.length / 141),
           bl.length / 141, bl.length / 141⟩ := rfl

/-- A field load that lies entirely inside the first `m` bytes is
unaffected by truncating the buffer to `m` bytes. -/
theorem readBytes_take (bl : Buf) (m off n : Nat) (h : off + n ≤ m) :
    readBytes (bl.take m) off n = readBytes bl off n := by
  unfold readBytes
  rw [List.drop_take, List.take_take]
  congr 1
  omega

/-- The query-"a" row predicate only looks at bytes of complete records:
rows `rid < k` are unaffected by truncating the buffer to `141 * k`
bytes. -/
theorem rowMatchesA_take (priceVal : Buf → ℚ) (t : ℚ) (bl : Buf)
    (k rid : Nat) (h : rid < k) :
    rowMatchesA priceVal t (bl.take (141 * k)) 141 rid =
      rowMatchesA priceVal t bl 141 rid := by
  unfold rowMatchesA
  rw [readBytes_take]
  simp only [extended_price_field_offset]
  omega

/-- Truncating to `141 * k` bytes does not change the count over the first
`k` rows. -/
theorem countMatchingA_take (priceVal : Buf → ℚ) (t : ℚ) (bl : Buf)
    (k : Nat) :
    countMatchingA priceVal t (bl.take (141 * k)) 141 k =
      countMatchingA priceVal t bl 141 k := by
  unfold countMatchingA
  congr 1
  apply List.filter_congr
  intro x hx
  exact rowMatchesA_take priceVal t bl k x (List.mem_range.mp hx)

/-- The truncated buffer holds exactly the same whole number of records. -/
theorem take_length_div (bl : Buf) :
    (bl.take (141 * (bl.length / 141))).length / 141 = bl.length / 141 := by
  rw [List.length_take]
  omega

/-! ## C1 -/

/-- C1: refuted by evaluation — the code is a slip.  For query "a" with
`use_cls = true` the worker decodes the timing triple from `s->bl`, but the
remaining payload bytes are never assigned to the local bufferlist `bl`
(run-query.cc:367-381 set `bl = s->bl` only in the `else` branch), so the
`matching_rows` decode at run-query.cc:408-409 reads from an empty buffer
and throws.  On a well-formed response — timing triple with
`nrows_server_processed = 10` followed by `matching_rows = 1`, both
decodable, as the first two conjuncts verify — the worker dies with a
buffer error instead of adding 1 to `result_count`. -/
theorem workerQueryA_cls_drops_payload :
    decodeU64 (encodeU64 10 ++ encodeU64 1) = some (10, encodeU64 1) ∧
    decodeU64 (encodeU64 1) = some (1, []) ∧
    workerQueryA true false (fun _ => 0) 75
      (encodeU64 0 ++ encodeU64 0 ++ encodeU64 10 ++ encodeU64 1) =
      .error .endOfBuffer :=
  ⟨rfl, rfl, rfl⟩

/-! ## C5 -/

set_option maxRecDepth 4000 in
/-- C5 counterexample: a 142-byte raw-row payload (stride 141, so one
complete record plus one trailing byte) is not a decode error — the claim
says it must be `DecodeFailed` and fatal.  The worker returns normally,
having evaluated exactly `142 / 141 = 1` row; `142` is not a multiple of
`141`. -/
theorem truncated_payload_not_rejected :
    workerQueryA false false (fun _ => 0) 0 (List.replicate 142 0) =
      .ok ⟨0, 1, 1⟩ ∧
    142 % 141 ≠ 0 :=
  ⟨rfl, by decide⟩

/-- C5 amended: a raw-row payload whose length is not a multiple of the
record stride is not detected: the worker computes
`num_rows = length / 141` by integer division (run-query.cc:394) and
silently evaluates exactly that many complete records — the trailing
partial record is discarded without any effect (evaluating the payload
truncated to a whole number of records gives the identical result) — and
no error is raised on this path. -/
theorem truncated_payload_silently_evaluated (priceVal : Buf → ℚ) (t : ℚ)
    (bl : Buf) :
    workerQueryA false false priceVal t
        (bl.take (141 * (bl.length / 141))) =
      workerQueryA false false priceVal t bl ∧
    workerQueryA false false priceVal t bl =
      .ok ⟨countMatchingA priceVal t bl 141 (bl.length / 141),
           bl.length / 141, bl.length / 141⟩ := by
  refine ⟨?_, workerQueryA_noCls_eq priceVal t bl⟩
  rw [workerQueryA_noCls_eq, workerQueryA_noCls_eq, take_length_div,
    countMatchingA_take]

/-! ## C2 -/

/-- The query-"e" loop accumulator, over any starting accumulator:
counting and printing are exactly a filter by the row predicate. -/
theorem workerQueryE_foldl (p : EParams) (rows : List RowViewE) (n : Nat)
    (acc : List RowViewE) :
    rows.foldl
        (fun acc r =>
          if matchesE p r then (acc.1 + 1, acc.2 ++ [r]) else acc)
        (n, acc) =
      (n + (rows.filter (matchesE p)).length,
       acc ++ rows.filter (matchesE p)) := by
  induction rows generalizing n acc with
  | nil => simp
  | cons r rest ih =>
    simp only [List.foldl_cons, List.filter_cons]
    by_cases h : matchesE p r
    · simp only [h, if_true, ih, List.length_cons, List.append_assoc,
        List.singleton_append]
      exact Prod.ext (by omega) rfl
    · simp [h, ih]

/-- C2: confirmed.  In the client-evaluation path of query "e"
(run-query.cc:495-512) a row is printed and counted iff
`ship_date_low ≤ ship_date < ship_date_high` and
`discount_low < discount < discount_high` and `quantity < max_quantity`;
in particular a row whose `ship_date` equals `ship_date_high` never
matches (strict upper bound), and a row whose `discount` equals
`discount_low` never matches (strict lower bound). -/
theorem queryE_predicate (p : EParams) (r : RowViewE)
    (rows : List RowViewE) :
    (workerQueryE p rows).1 = (rows.filter (matchesE p)).length ∧
    (workerQueryE p rows).2 = rows.filter (matchesE p) ∧
    (matchesE p r = true ↔
      (p.ship_date_low ≤ r.ship_date ∧ r.ship_date < p.ship_date_high ∧
       p.discount_low < r.discount ∧ r.discount < p.discount_high ∧
       r.quantity < p.quantity)) ∧
    matchesE p { r with ship_date := p.ship_date_high } = false ∧
    matchesE p { r with discount := p.discount_low } = false := by
  refine ⟨?_, ?_, ?_, ?_, ?_⟩
  · rw [workerQueryE, workerQueryE_foldl]; simp
  · rw [workerQueryE, workerQueryE_foldl]; simp
  · unfold matchesE
    split_ifs with h1 h2 h3 <;> simp_all
  · simp [matchesE]
  · simp [matchesE]

/-! ## C3 -/

/-- Folding the per-frame step: the counter deltas over a frame list are
componentwise sums; `result_count` sums transformed `nrows` under
projection and input `nrows` otherwise, while `rows_returned` and
`nrows_processed` always sum the input frames' `nrows`. -/
theorem flatbufFrameStep_foldl (projection : Bool) (rootNrows : Buf → Nat)
    (processSkyFb : String → String → Buf → Buf) (ts qs : String)
    (frames : List Buf) (c : FbCounters) :
    List.foldl
        (flatbufFrameStep projection rootNrows processSkyFb ts qs) c
        frames =
      { result_count := c.result_count +
          (frames.map (fun fb =>
            if projection then rootNrows (processSkyFb ts qs fb)
            else rootNrows fb)).sum,
        rows_returned := c.rows_returned + (frames.map rootNrows).sum,
        nrows_processed :=
          c.nrows_processed + (frames.map rootNrows).sum } := by
  induction frames generalizing c with
  | nil => simp
  | cons fb rest ih =>
    simp only [List.foldl_cons, ih, List.map_cons, List.sum_cons]
    unfold flatbufFrameStep
    by_cases h : projection <;>
      simp [h, FbCounters.mk.injEq] <;> omega

/-- C3: confirmed.  For query "flatbuf" with `use_cls = false`
(run-query.cc:315-362): per decoded frame, with projection requested the
frame is transformed by the collaborator
`processSkyFb(table_schema, query_schema, bytes)` and the transformed
buffer's `nrows` is added to `result_count`; without projection the input
frame's root-header `nrows` is added directly; in both cases
`nrows_processed` (and `rows_returned`) grow by the input frame's
`nrows`. -/
theorem workerFlatbufNoCls_spec (projection : Bool) (rootNrows : Buf → Nat)
    (processSkyFb : String → String → Buf → Buf) (ts qs : String)
    (payload : Buf) (frames : List Buf)
    (h : decodeBls payload = some frames) :
    workerFlatbufNoCls projection rootNrows processSkyFb ts qs payload =
      some { result_count :=
               (frames.map (fun fb =>
                 if projection then rootNrows (processSkyFb ts qs fb)
                 else rootNrows fb)).sum,
             rows_returned := (frames.map rootNrows).sum,
             nrows_processed := (frames.map rootNrows).sum } := by
  unfold workerFlatbufNoCls
  rw [h]
  simp [flatbufFrameStep_foldl]

/-- C3 witness: a payload holding one 1-byte frame, with `nrows` read as
the byte length and a transform that empties the frame: with projection
on, `result_count` counts the transformed (empty) frame while
`rows_returned` and `nrows_processed` count the input frame. -/
theorem workerFlatbufNoCls_spec_witness :
    decodeBls [1, 0, 0, 0, 9] = some [[9]] ∧
    workerFlatbufNoCls true List.length (fun _ _ _ => []) "ts" "qs"
        [1, 0, 0, 0, 9] =
      some { result_count := 0, rows_returned := 1, nrows_processed := 1 } := by
  refine ⟨by simp [decodeBls], ?_⟩
  rw [workerFlatbufNoCls_spec true List.length (fun _ _ _ => []) "ts" "qs"
    [1, 0, 0, 0, 9] [[9]] (by simp [decodeBls])]
  decide

/-! ## C4 -/

/-- C4 counterexample: starting from a state with one in-flight I/O, the
completion callback leaves the in-flight counter at 1 (it does not
decrement it to 0) and sends no signal to the dispatcher — refuting the
claim that `handle_cb` decrements the counter and signals the
dispatcher. -/
theorem handle_cb_no_decrement_no_dispatch_signal :
    (handle_cb 5 ⟨⟨3, 0, 0, 0, 0⟩, []⟩ ⟨1, [], 0, 0⟩).outstanding_ios ≠ 0 ∧
    (handle_cb 5 ⟨⟨3, 0, 0, 0, 0⟩, []⟩ ⟨1, [], 0, 0⟩).dispatch_signals = 0 := by
  decide

/-- C4 amended: for every completed I/O, the callback `handle_cb`
(run-query.cc:557-570) captures `response = monotonic_now()`, pushes the
completed record onto the completion queue and signals a worker; the
in-flight decrement and the dispatcher signal are performed by the worker
when it consumes the record (run-query.cc:238-247), not by the
callback. -/
theorem handle_cb_worker_split (now : Nat) (s a : AioRecord) (st : CbState)
    (rest : List AioRecord) :
    (handle_cb now s st).outstanding_ios = st.outstanding_ios ∧
    (handle_cb now s st).dispatch_signals = st.dispatch_signals ∧
    (handle_cb now s st).work_signals = st.work_signals + 1 ∧
    (handle_cb now s st).ready_ios =
      st.ready_ios ++ [{ s with times := { s.times with response := now } }] ∧
    workerConsume { st with ready_ios := a :: rest } =
      some (a, { st with ready_ios := rest,
                         outstanding_ios := st.outstanding_ios - 1,
                         dispatch_signals := st.dispatch_signals + 1 }) :=
  ⟨rfl, rfl, rfl, rfl, rfl⟩

/-! ## C6 -/

/-- C6: confirmed.  The sanity-check block (run-query.cc:690-781) runs
before the dispatch loop (line 797) and passes iff the argument-validity
table holds: queries "a", "b", "c" require `extended_price ≠ 0` and forbid
`use_index`; query "d" requires `order_key ≠ 0`, `line_number ≠ 0` and
`use_index ⇒ use_cls`; query "fastpath" forbids both `use_index` and
`projection`; an unknown query name fails (diagnostic and `exit(1)`). -/
theorem sanityCheck_table (fb : Args → Bool) (a : Args) (q : String) :
    ((a.query = "a" ∨ a.query = "b" ∨ a.query = "c") →
      (sanityCheck fb a = true ↔
        (a.extended_price ≠ 0 ∧ a.use_index = false))) ∧
    (a.query = "d" →
      (sanityCheck fb a = true ↔
        (a.order_key ≠ 0 ∧ a.line_number ≠ 0 ∧
         (a.use_index = true → a.use_cls = true)))) ∧
    (a.query = "fastpath" →
      (sanityCheck fb a = true ↔
        (a.use_index = false ∧ a.projection = false))) ∧
    (q ∉ knownQueries → sanityCheck fb { a with query := q } = false) := by
  refine ⟨?_, ?_, ?_, ?_⟩
  · rintro (h | h | h) <;> simp [sanityCheck, h] <;> tauto
  · intro h
    simp only [sanityCheck, h]
    cases hui : a.use_index <;> cases huc : a.use_cls <;> simp
  · intro h
    simp [sanityCheck, h]
  · intro h
    simp only [knownQueries, List.mem_cons, List.not_mem_nil, or_false,
      not_or] at h
    obtain ⟨h1, h2, h3, h4, h5, h6, h7, h8⟩ := h
    simp [sanityCheck, h1, h2, h3, h4, h5, h6, h7, h8]

/-- A concrete argument vector for query "a": threshold 1, no modifier
flags, every other parameter at its CLI default (run-query.cc:607-616). -/
def argsQueryA : Args :=
  { query := "a", use_cls := false, use_index := false, projection := false,
    extended_price := 1, order_key := 0, line_number := 0,
    ship_date_low := -9999, ship_date_high := -9999,
    discount_low := -9999, discount_high := -9999, quantity := 0,
    comment_regex := "" }

/-- C6 witness: query "a" with `extended_price = 1` and `use_index` off
passes the checks; the unknown query name "nosuchquery" fails them. -/
theorem sanityCheck_table_witness :
    sanityCheck (fun _ => true) argsQueryA = true ∧
    sanityCheck (fun _ => true) { argsQueryA with query := "nosuchquery" } =
      false := by
  constructor
  · exact ((sanityCheck_table (fun _ => true) argsQueryA "nosuchquery").1
      (Or.inl rfl)).mpr ⟨by norm_num [argsQueryA], rfl⟩
  · exact (sanityCheck_table (fun _ => true) argsQueryA "nosuchquery").2.2.2
      (by decide)

/-! ## C7 -/

/-- C7: confirmed.  In every state reachable by interleaving dispatches
(enabled only while `outstanding_ios < qdepth`, each incrementing the
counter once), callbacks (which do not touch the counter) and worker
consumptions (each decrementing it once), the in-flight counter never
exceeds `qdepth`; when the window is full no dispatch step is enabled —
the dispatcher can only wait. -/
theorem outstanding_le_qdepth (qdepth : Nat) (targets : List String)
    (s : LoopState) (h : LoopReachable qdepth targets s) :
    s.outstanding_ios ≤ qdepth := by
  induction h with
  | init => exact Nat.zero_le _
  | step hr hstep ih =>
    cases hstep with
    | dispatch hlt hne => exact hlt
    | callback hpos => exact ih
    | consume hpos => exact le_trans (Nat.sub_le _ _) ih

/-- C7 witness: with `qdepth = 1` and one target, the state reached by a
single dispatch has `outstanding_ios = 1 ≤ 1`. -/
theorem outstanding_le_qdepth_witness :
    ({ outstanding_ios := 1, remaining := [], inflight := 1,
       ready_ios := 0 } : LoopState).outstanding_ios ≤ 1 :=
  outstanding_le_qdepth 1 ["obj.0"] _
    (LoopReachable.step LoopReachable.init
      (LoopStep.dispatch (initLoopState ["obj.0"]) (by decide) (by decide)))

/-! ## C8 -/

/-- The first generated target name. -/
theorem buildTargets_head (m : Nat) :
    (buildTargets (m + 1)).head? = some ("obj." ++ toString 0) := by
  unfold buildTargets
  rw [List.range_succ_eq_map]
  rfl

/-- The last generated target name. -/
theorem buildTargets_getLast (m : Nat) :
    (buildTargets (m + 1)).getLast? = some ("obj." ++ toString m) := by
  unfold buildTargets
  rw [List.range_succ, List.map_append]
  simp

/-- C8: confirmed.  The targets are `obj.0 … obj.(num_objs-1)` and are
dispatched by popping the back of the vector: with `dir = "fwd"` the
vector is reversed first, so `obj.0` is dispatched first; with
`dir = "bwd"` the initial order is kept, so `obj.(num_objs-1)` is
dispatched first; any direction other than `fwd`, `bwd`, `rnd` aborts. -/
theorem targets_order (n : Nat) (shuffle : List String → List String)
    (d : String) :
    (0 < n →
      (orderTargets "fwd" shuffle (buildTargets n)).bind nextDispatched =
        some "obj.0" ∧
      (orderTargets "bwd" shuffle (buildTargets n)).bind nextDispatched =
        some ("obj." ++ toString (n - 1))) ∧
    (d ≠ "fwd" → d ≠ "bwd" → d ≠ "rnd" →
      orderTargets d shuffle (buildTargets n) = none) := by
  constructor
  · intro hn
    obtain ⟨m, rfl⟩ : ∃ m, n = m + 1 :=
      ⟨n - 1, (Nat.succ_pred_eq_of_pos hn).symm⟩
    constructor
    · simp only [orderTargets, nextDispatched, reduceIte, Option.some_bind,
        List.getLast?_reverse, buildTargets_head]
      decide
    · simp [orderTargets, nextDispatched, buildTargets_getLast]
  · intro h1 h2 h3
    simp [orderTargets, h1, h2, h3]

/-- C8 witness: three objects; forward dispatches `obj.0` first, backward
dispatches `obj.2` first, and direction "up" aborts. -/
theorem targets_order_witness :
    (orderTargets "fwd" id (buildTargets 3)).bind nextDispatched =
      some "obj.0" ∧
    (orderTargets "bwd" id (buildTargets 3)).bind nextDispatched =
      some ("obj." ++ toString (3 - 1)) ∧
    orderTargets "up" id (buildTargets 3) = none := by
  obtain ⟨h, hbad⟩ := targets_order 3 id "up"
  obtain ⟨hf, hb⟩ := h (by decide)
  exact ⟨hf, hb, hbad (by decide) (by decide) (by decide)⟩

/-! ## C9 -/

/-- C9: confirmed.  The summary line (run-query.cc:880-888) is
`total result row count: R / T; nrows_processed=P` with `T` the final
`rows_returned` for every query/mode pair except query "a" with
`use_cls = true`, where the literal `-1` is printed in place of
`rows_returned`. -/
theorem finalSummaryLine_spec (q : String) (uc : Bool) (R T P : Nat) :
    (¬(q = "a" ∧ uc = true) →
      finalSummaryLine q uc R T P =
        "total result row count: " ++ toString R ++ " / " ++ toString T ++
          "; nrows_processed=" ++ toString P) ∧
    finalSummaryLine "a" true R T P =
      "total result row count: " ++ toString R ++ " / -1" ++
        "; nrows_processed=" ++ toString P := by
  constructor
  · intro h
    unfold finalSummaryLine
    rw [if_neg h]
  · unfold finalSummaryLine
    rw [if_pos ⟨rfl, rfl⟩]

/-- C9 witness: query "a" without pushdown prints the true
`rows_returned`. -/
theorem finalSummaryLine_spec_witness :
    finalSummaryLine "a" false 1 10 10 =
      "total result row count: " ++ toString 1 ++ " / " ++ toString 10 ++
        "; nrows_processed=" ++ toString 10 :=
  (finalSummaryLine_spec "a" false 1 10 10).1 (by simp)

/-! ## C10 -/

/-- C10: confirmed.  With `use_cls = false` the timing record appended by
the worker is exactly the dispatch-time record (zero-initialized, then
`dispatch` stamped) with `response` stamped by the callback and `eval2_ns`
stamped by the worker: `read_ns` and `eval_ns` stay 0, since the only
writes to them — `workerDecodeStats`, the pushdown statistics decode of
run-query.cc:264-265/372-373 — run only when `use_cls`; by contrast the
`use_cls` pipeline overwrites both. -/
theorem noCls_timing_read_eval_zero (d r e2 rn en : Nat) :
    workerSetEval2 e2 (callbackSetResponse r (dispatchInitTiming d)) =
      { dispatch := d, response := r, read_ns := 0, eval_ns := 0,
        eval2_ns := e2 } ∧
    (workerSetEval2 e2 (callbackSetResponse r (dispatchInitTiming d))).read_ns
      = 0 ∧
    (workerSetEval2 e2 (callbackSetResponse r (dispatchInitTiming d))).eval_ns
      = 0 ∧
    workerSetEval2 e2
        (workerDecodeStats rn en (callbackSetResponse r (dispatchInitTiming d))) =
      { dispatch := d, response := r, read_ns := rn, eval_ns := en,
        eval2_ns := e2 } :=
  ⟨rfl, rfl, rfl, rfl⟩

end RunQuery
